import Mathlib

/-!
Verification of the presentation playback controller and its adapters,
shallowly embedded from the frontend sources (App.jsx latest variant,
SlideNav.jsx, useSpeechRecognition and useWebSocket hooks).

The controller is single-threaded and event-driven: each user action or
timer firing runs an async handler to completion.  We model each handler
as a function from the controller state (component state plus the refs
mirrored at event boundaries) and the server response it awaits, to the
new state together with the list of externally observable actions it
emits (HTTP fetches, websocket messages, text-to-speech calls, console
error logs).  Delayed continuations created with setTimeout are recorded
in a pending-timer list and fire as separate events that re-read the
refs at fire time, exactly as the callbacks in the source do.
-/

namespace Synthio

/-- Response of GET /api/present/start and GET /api/present/next. -/
structure PresentData where
  current_slide : Int
  narration : String
  has_next : Bool
deriving DecidableEq

/-- Response of GET /api/present/slide/n. -/
structure SlideData where
  narration : String
  has_next : Bool
deriving DecidableEq

/-- Response of POST /api/question. -/
structure QuestionData where
  response : String
  slide_changed : Bool
  target_slide : Int
deriving DecidableEq

/-- The HTTP endpoints the playback controller fetches. -/
inductive FetchPath
  | presentStart
  | presentNext
  | presentSlide (n : Int)
  | questionPost
deriving DecidableEq

/-- Externally observable actions emitted by a handler. -/
inductive Act
  | fetch (p : FetchPath)
  | wsSlideUpdate (n : Int)
  | wsInterrupt
  | wsSpeaking (b : Bool)
  | ttsCancel
  | speakText (t : String)
  | logError
deriving DecidableEq

/-- Delayed continuations created with setTimeout: the 500 ms callback
scheduled by startPresentation / continuePresentation / resumePresentation
(guarding then calling continuePresentation) and the 1000 ms callback
scheduled by sendQuestion (guarding then calling resumePresentation). -/
inductive Timer
  | contin
  | resume
deriving DecidableEq

/-- Controller state: component state plus the refs, taken at event
boundaries where the sync effects have run. -/
structure AppState where
  totalSlides : Nat
  currentSlide : Int
  isPresenting : Bool
  isSpeaking : Bool
  isProcessing : Bool
  shouldContinue : Bool
  aiResponse : String
  transcript : String
  pending : List Timer
deriving DecidableEq

/-- Trace of speechSynthesis calls made by one completed speak(text):
cancel any in-flight utterance, then start the new one (App.jsx speak). -/
def speakActs (t : String) : List Act :=
  [Act.ttsCancel, Act.speakText t]

/-- App.jsx stopSpeaking: cancel speech, clear the speaking flag, notify. -/
def stopSpeaking (st : AppState) : AppState × List Act :=
  ({ st with isSpeaking := false }, [Act.ttsCancel, Act.wsSpeaking false])

/-- App.jsx continuePresentation, run to completion with server response r
(none models a fetch/parse failure caught by the catch block). -/
def continuePresentation (st : AppState) (r : Option PresentData) : AppState × List Act :=
  if !st.shouldContinue || !st.isPresenting then (st, [])
  else
    match r with
    | none => (st, [Act.fetch FetchPath.presentNext, Act.logError])
    | some d =>
      let st1 := { st with currentSlide := d.current_slide, aiResponse := d.narration,
                           isSpeaking := false }
      let acts := [Act.fetch FetchPath.presentNext, Act.wsSlideUpdate d.current_slide]
                    ++ speakActs d.narration
      if d.has_next && st1.shouldContinue && st1.isPresenting then
        ({ st1 with pending := st1.pending ++ [Timer.contin] }, acts)
      else if !d.has_next then
        ({ st1 with isPresenting := false }, acts)
      else (st1, acts)

/-- The continuation phrase resumePresentation prepends to the narration. -/
def resumePreamble : String := "Let me continue where we left off. "

/-- App.jsx resumePresentation: re-fetch the narration of the slide that is
current at resumption time and speak it behind the continuation phrase. -/
def resumePresentation (st : AppState) (r : Option SlideData) : AppState × List Act :=
  if !st.shouldContinue || !st.isPresenting then (st, [])
  else
    match r with
    | none => (st, [Act.fetch (FetchPath.presentSlide st.currentSlide), Act.logError])
    | some d =>
      let resumeNarration := resumePreamble ++ d.narration
      let st1 := { st with aiResponse := resumeNarration, isSpeaking := false }
      let acts := [Act.fetch (FetchPath.presentSlide st.currentSlide)]
                    ++ speakActs resumeNarration
      if d.has_next && st1.shouldContinue && st1.isPresenting then
        ({ st1 with pending := st1.pending ++ [Timer.contin] }, acts)
      else if !d.has_next then
        ({ st1 with isPresenting := false }, acts)
      else (st1, acts)

/-- App.jsx startPresentation.  Note the catch block only logs; the finally
block resets isProcessing but isPresenting stays true. -/
def startPresentation (st : AppState) (r : Option PresentData) : AppState × List Act :=
  let st0 := { st with isPresenting := true, shouldContinue := true, isProcessing := true }
  match r with
  | none => ({ st0 with isProcessing := false }, [Act.fetch FetchPath.presentStart, Act.logError])
  | some d =>
    let st1 := { st0 with currentSlide := d.current_slide, aiResponse := d.narration,
                          isSpeaking := false }
    let st2 := if d.has_next && st1.shouldContinue then
                 { st1 with pending := st1.pending ++ [Timer.contin] }
               else st1
    ({ st2 with isProcessing := false },
     [Act.fetch FetchPath.presentStart, Act.wsSlideUpdate d.current_slide]
       ++ speakActs d.narration)

/-- App.jsx stopAgent: halt the loop and cancel speech without leaving
presentation mode. -/
def stopAgent (st : AppState) : AppState × List Act :=
  let s := stopSpeaking { st with shouldContinue := false }
  (s.fst, s.snd ++ [Act.wsInterrupt])

/-- App.jsx stopPresentation: halt the loop, leave presentation mode,
cancel speech, announce the interrupt. -/
def stopPresentation (st : AppState) : AppState × List Act :=
  let s := stopSpeaking { st with shouldContinue := false, isPresenting := false }
  (s.fst, s.snd ++ [Act.wsInterrupt])

/-- App.jsx sendQuestion, run to completion with question response q
(none models a caught failure).  The finally block always resets
isProcessing and clears the transcript. -/
def sendQuestion (st : AppState) (q : Option QuestionData) : AppState × List Act :=
  let st0 := { st with isProcessing := true }
  match q with
  | none =>
    ({ st0 with isProcessing := false, transcript := "" },
     [Act.fetch FetchPath.questionPost, Act.logError])
  | some d =>
    let st1 := if d.slide_changed then { st0 with currentSlide := d.target_slide } else st0
    let acts1 := if d.slide_changed then [Act.wsSlideUpdate d.target_slide] else []
    let st2 := { st1 with aiResponse := d.response, isSpeaking := false }
    let st3 := if st2.isPresenting then
                 { st2 with shouldContinue := true, pending := st2.pending ++ [Timer.resume] }
               else st2
    ({ st3 with isProcessing := false, transcript := "" },
     [Act.fetch FetchPath.questionPost] ++ acts1 ++ speakActs d.response)

/-- App.jsx askQuestion, start-recording branch: interrupt the agent and
begin capturing a question. -/
def askQuestion (st : AppState) : AppState × List Act :=
  let s := stopSpeaking { st with shouldContinue := false, transcript := "" }
  (s.fst, s.snd)

/-- SlideNav/App.jsx handleNavigate clamp: Math.max(1, Math.min(n, slides.length)). -/
def handleNavigate (slideNumber : Int) (totalSlides : Nat) : Int :=
  max 1 (min slideNumber (totalSlides : Int))

/-- App.jsx handleNavigate as a state transition. -/
def navigateStep (st : AppState) (n : Int) : AppState × List Act :=
  let newSlide := handleNavigate n st.totalSlides
  let s := stopSpeaking st
  ({ s.fst with currentSlide := newSlide }, s.snd ++ [Act.wsSlideUpdate newSlide])

/-- A 500 ms continuation timer fires: the callback re-reads the refs and
only then calls continuePresentation. -/
def fireContin (st : AppState) (r : Option PresentData) : AppState × List Act :=
  if Timer.contin ∈ st.pending then
    let st0 := { st with pending := st.pending.erase Timer.contin }
    if st0.isPresenting && st0.shouldContinue then continuePresentation st0 r
    else (st0, [])
  else (st, [])

/-- The 1000 ms resume timer scheduled by sendQuestion fires: the callback
re-reads the refs and only then calls resumePresentation. -/
def fireResume (st : AppState) (r : Option SlideData) : AppState × List Act :=
  if Timer.resume ∈ st.pending then
    let st0 := { st with pending := st.pending.erase Timer.resume }
    if st0.isPresenting && st0.shouldContinue then resumePresentation st0 r
    else (st0, [])
  else (st, [])

/-- Events of the controller: user actions and timer firings, each with the
server response the handler awaits where it performs a fetch. -/
inductive Ev
  | start (r : Option PresentData)
  | continTimer (r : Option PresentData)
  | resumeTimer (r : Option SlideData)
  | question (q : Option QuestionData)
  | navigate (n : Int)
  | stopPres
  | stopAgentEv
  | ask
deriving DecidableEq

/-- One event processed by the controller. -/
def step (st : AppState) (e : Ev) : AppState × List Act :=
  match e with
  | Ev.start r => startPresentation st r
  | Ev.continTimer r => fireContin st r
  | Ev.resumeTimer r => fireResume st r
  | Ev.question q => sendQuestion st q
  | Ev.navigate n => navigateStep st n
  | Ev.stopPres => stopPresentation st
  | Ev.stopAgentEv => stopAgent st
  | Ev.ask => askQuestion st

/-- A sequence of events processed by the controller, with the
concatenated action trace. -/
def run (st : AppState) : List Ev → AppState × List Act
  | [] => (st, [])
  | e :: es =>
    let s1 := step st e
    let s2 := run s1.fst es
    (s2.fst, s1.snd ++ s2.snd)

/-! ### Speech Output Adapter (App.jsx speak), modelled on its own

speak(text) returns a promise.  When speechSynthesis is absent it
resolves at once, making no speechSynthesis call, never touching the
isSpeaking flag and sending no speaking-status event.  When present it
cancels any in-flight utterance, builds the new utterance and starts it;
the utterance lifecycle callbacks then toggle the flag, notify the
status channel and resolve the promise. -/

/-- Lifecycle callbacks of a SpeechSynthesisUtterance. -/
inductive UtterEv
  | uStart
  | uEnd
  | uError
deriving DecidableEq

/-- The isSpeaking value each utterance callback writes. -/
def utterFlag : UtterEv → Bool
  | UtterEv.uStart => true
  | UtterEv.uEnd => false
  | UtterEv.uError => false

/-- Whether an utterance callback resolves the speak promise. -/
def utterResolves : UtterEv → Bool
  | UtterEv.uStart => false
  | UtterEv.uEnd => true
  | UtterEv.uError => true

/-- Observable outcome of one speak(text) call. -/
structure SpeakRun where
  resolvedImmediately : Bool
  tts : List Act
  speakingFlags : List Bool
  wsEvents : List Bool
deriving DecidableEq

/-- App.jsx speak(text): the supported flag is the speechSynthesis-in-window
test, life the utterance lifecycle callbacks the platform fires. -/
def speakModel (supported : Bool) (text : String) (life : List UtterEv) : SpeakRun :=
  if supported then
    { resolvedImmediately := false
      tts := [Act.ttsCancel, Act.speakText text]
      speakingFlags := life.map utterFlag
      wsEvents := life.map utterFlag }
  else
    { resolvedImmediately := true, tts := [], speakingFlags := [], wsEvents := [] }

/-! ### Speech Input Adapter (useSpeechRecognition, continuous variant) -/

/-- Error kinds delivered to recognition.onerror. -/
inductive RecErr
  | noSpeech
  | notAllowed
  | aborted
  | other (msg : String)
deriving DecidableEq

/-- Hook state: the continuous-mode ref, the listening flag and the
surfaced error message. -/
structure RecState where
  continuousMode : Bool
  isListening : Bool
  errMsg : Option String
deriving DecidableEq

/-- Calls made on the underlying recognition object. -/
inductive RecAct
  | recStart
  | recStop
  | recAbort
deriving DecidableEq

/-- The continuous-variant onerror handler: not-allowed surfaces a message,
no-speech restarts while in continuous mode, aborted is silent, anything
else surfaces a message; the handler always clears isListening. -/
def onRecError (st : RecState) (e : RecErr) : RecState × List RecAct :=
  match e with
  | RecErr.notAllowed =>
    ({ st with errMsg := some "Microphone access denied.", isListening := false }, [])
  | RecErr.noSpeech =>
    if st.continuousMode then ({ st with isListening := false }, [RecAct.recStart])
    else ({ st with isListening := false }, [])
  | RecErr.aborted => ({ st with isListening := false }, [])
  | RecErr.other m =>
    ({ st with errMsg := some ("Speech error: " ++ m), isListening := false }, [])

/-- The continuous-variant onend handler: restart whenever the
continuous-mode ref is still set. -/
def onRecEnd (st : RecState) : RecState × List RecAct :=
  if st.continuousMode then ({ st with isListening := false }, [RecAct.recStart])
  else ({ st with isListening := false }, [])

/-- Recognition events: platform callbacks plus the hook operations that
flip the continuous-mode ref (stopContinuousListening and the unmount
cleanup both clear the ref before stopping or aborting). -/
inductive RecEv
  | err (e : RecErr)
  | ended
  | startedCb
  | beginContinuous
  | stopContinuous
  | cleanup
deriving DecidableEq

/-- One recognition event processed by the hook. -/
def recStep (st : RecState) (e : RecEv) : RecState × List RecAct :=
  match e with
  | RecEv.err er => onRecError st er
  | RecEv.ended => onRecEnd st
  | RecEv.startedCb => ({ st with isListening := true, errMsg := none }, [])
  | RecEv.beginContinuous =>
    ({ st with continuousMode := true, errMsg := none }, [RecAct.recStart])
  | RecEv.stopContinuous => ({ st with continuousMode := false }, [RecAct.recStop])
  | RecEv.cleanup => ({ st with continuousMode := false }, [RecAct.recAbort])

/-- A sequence of recognition events, with the concatenated trace of
calls on the recognition object. -/
def recRun (st : RecState) : List RecEv → RecState × List RecAct
  | [] => (st, [])
  | e :: es =>
    let s1 := recStep st e
    let s2 := recRun s1.fst es
    (s2.fst, s1.snd ++ s2.snd)

/-! ### Status Channel (useWebSocket) -/

/-- The fixed reconnect delay hard-coded in the onclose handler. -/
def RECONNECT_DELAY_MS : Nat := 3000

/-- Hook state: gen counts sockets created so far (the current socket is
number gen), isConnected mirrors the open state, reconnectPending records
a scheduled reconnect timeout. -/
structure WsState where
  gen : Nat
  isConnected : Bool
  reconnectPending : Bool
deriving DecidableEq

/-- Observable actions of the websocket hook. -/
inductive WsAct
  | create (gen : Nat)
  | scheduleReconnect (delayMs : Nat)
  | wsSend (gen : Nat) (m : String)
deriving DecidableEq

/-- useWebSocket connect(): no-op if the current socket is open, otherwise
create a fresh socket. -/
def wsConnect (st : WsState) : WsState × List WsAct :=
  if st.isConnected then (st, [])
  else ({ st with gen := st.gen + 1 }, [WsAct.create (st.gen + 1)])

/-- Websocket events: socket callbacks, the reconnect timeout firing, and
sendMessage calls from the component. -/
inductive WsEv
  | closedCb
  | fireReconnect
  | openedCb
  | send (m : String)
deriving DecidableEq

/-- One websocket event processed by the hook while mounted.  onclose
always schedules connect() after the fixed 3000 ms delay; sendMessage
sends on the current socket only when it is open. -/
def wsStep (st : WsState) (e : WsEv) : WsState × List WsAct :=
  match e with
  | WsEv.closedCb =>
    ({ st with isConnected := false, reconnectPending := true },
     [WsAct.scheduleReconnect RECONNECT_DELAY_MS])
  | WsEv.fireReconnect =>
    if st.reconnectPending then wsConnect { st with reconnectPending := false }
    else (st, [])
  | WsEv.openedCb => ({ st with isConnected := true }, [])
  | WsEv.send m => if st.isConnected then (st, [WsAct.wsSend st.gen m]) else (st, [])

/-- A sequence of websocket events with the concatenated action trace. -/
def wsRun (st : WsState) : List WsEv → WsState × List WsAct
  | [] => (st, [])
  | e :: es =>
    let s1 := wsStep st e
    let s2 := wsRun s1.fst es
    (s2.fst, s1.snd ++ s2.snd)

/-! ## Claim theorems -/

/-- C4: the Speech Output Adapter never has two concurrently active
utterances: in the speechSynthesis call trace of any speak(text) call,
every start of the new utterance is preceded by a cancel of whatever
utterance was pending. -/
theorem speak_cancels_before_new_utterance (supported : Bool) (text : String)
    (life : List UtterEv) (i : Nat)
    (h : (speakModel supported text life).tts.get? i = some (Act.speakText text)) :
    ∃ j, j < i ∧ (speakModel supported text life).tts.get? j = some Act.ttsCancel := by
  cases supported with
  | false => simp [speakModel] at h
  | true =>
    match i with
    | 0 => simp [speakModel] at h
    | n + 1 => exact ⟨0, Nat.succ_pos n, by simp [speakModel]⟩

/-- Witness for C4 at a concrete utterance. -/
theorem speak_cancels_before_new_utterance_witness :
    ∃ j, j < 1 ∧ (speakModel true "hello" []).tts.get? j = some Act.ttsCancel :=
  speak_cancels_before_new_utterance true "hello" [] 1 (by decide)

/-- C5: handleNavigate(n) computes Math.max(1, Math.min(n, slides.length)),
which clamps any integer n, negative and out-of-range values included,
into the interval from 1 to totalSlides. -/
theorem handleNavigate_clamps (n : Int) (total : Nat) (h : 1 ≤ total) :
    1 ≤ handleNavigate n total ∧ handleNavigate n total ≤ (total : Int) ∧
    (1 ≤ n → n ≤ (total : Int) → handleNavigate n total = n) ∧
    (n < 1 → handleNavigate n total = 1) ∧
    ((total : Int) < n → handleNavigate n total = (total : Int)) := by
  unfold handleNavigate
  omega

/-- Witness for C5 at a concrete negative slide number. -/
theorem handleNavigate_clamps_witness :
    1 ≤ handleNavigate (-5) 3 ∧ handleNavigate (-5) 3 ≤ ((3 : Nat) : Int) ∧
    (1 ≤ (-5 : Int) → (-5 : Int) ≤ ((3 : Nat) : Int) → handleNavigate (-5) 3 = -5) ∧
    ((-5 : Int) < 1 → handleNavigate (-5) 3 = 1) ∧
    (((3 : Nat) : Int) < -5 → handleNavigate (-5) 3 = ((3 : Nat) : Int)) :=
  handleNavigate_clamps (-5) 3 (by decide)

/-- C9: when the platform speech-synthesis capability is absent, speak(text)
resolves immediately for every text and utterance lifecycle, makes no
speechSynthesis call, never sets the isSpeaking flag, and emits no
speaking-status event on the status channel. -/
theorem speak_unsupported_resolves (text : String) (life : List UtterEv) :
    (speakModel false text life).resolvedImmediately = true ∧
    (speakModel false text life).tts = [] ∧
    (speakModel false text life).speakingFlags = [] ∧
    (speakModel false text life).wsEvents = [] := by
  simp [speakModel]

/-- Whether an action is a narration fetch, i.e. a request to
/api/present/next or /api/present/slide/n. -/
def narrationFetch : Act → Bool
  | Act.fetch FetchPath.presentNext => true
  | Act.fetch (FetchPath.presentSlide _) => true
  | _ => false

/-- Whether an event is anything other than a fresh startPresentation. -/
def nonStart : Ev → Bool
  | Ev.start _ => false
  | _ => true

/-- Once the controller is halted (isPresenting and shouldContinue both
false), any event other than a fresh start keeps it halted and emits no
narration fetch: the timer callbacks re-read the refs and no-op, and a
question asked while not presenting does not re-arm the loop. -/
theorem stopped_step (st : AppState) (e : Ev) (hs : st.isPresenting = false)
    (hc : st.shouldContinue = false) (he : nonStart e = true) :
    (step st e).fst.isPresenting = false ∧ (step st e).fst.shouldContinue = false ∧
    ∀ a ∈ (step st e).snd, narrationFetch a = false := by
  cases e with
  | start r => simp [nonStart] at he
  | continTimer r =>
    simp only [step, fireContin, hs]
    split <;> simp [continuePresentation, hs, hc]
  | resumeTimer r =>
    simp only [step, fireResume, hs]
    split <;> simp [resumePresentation, hs, hc]
  | question q =>
    cases q with
    | none => exact ⟨hs, hc, by simp [step, sendQuestion, narrationFetch]⟩
    | some d =>
      simp only [step, sendQuestion, speakActs, hs]
      cases hd : d.slide_changed <;>
        simp [hd, hs, hc, narrationFetch]
  | navigate n => exact ⟨hs, hc, by simp [step, navigateStep, stopSpeaking, narrationFetch]⟩
  | stopPres => exact ⟨rfl, rfl, by simp [step, stopPresentation, stopSpeaking, narrationFetch]⟩
  | stopAgentEv => exact ⟨hs, rfl, by simp [step, stopAgent, stopSpeaking, narrationFetch]⟩
  | ask => exact ⟨hs, rfl, by simp [step, askQuestion, stopSpeaking, narrationFetch]⟩

/-- C2: once stopPresentation() has run, isPresenting is false, and along
any subsequent event sequence that contains no fresh startPresentation —
delayed continuations scheduled before the stop and firing afterwards
included — no narration fetch is ever issued. -/
theorem stop_halts_narration_fetches (st : AppState) (evs : List Ev)
    (h : ∀ e ∈ evs, nonStart e = true) :
    (stopPresentation st).fst.isPresenting = false ∧
    ∀ a ∈ (run (stopPresentation st).fst evs).snd, narrationFetch a = false := by
  have main : ∀ evs : List Ev, ∀ s : AppState, s.isPresenting = false →
      s.shouldContinue = false → (∀ e ∈ evs, nonStart e = true) →
      ∀ a ∈ (run s evs).snd, narrationFetch a = false := by
    intro evs
    induction evs with
    | nil => intro s _ _ _ a ha; simp [run] at ha
    | cons e es ih =>
      intro s h1 h2 hv a ha
      simp only [run, List.mem_append] at ha
      rcases ha with ha | ha
      · exact (stopped_step s e h1 h2 (hv e (by simp))).2.2 a ha
      · have hst := stopped_step s e h1 h2 (hv e (by simp))
        exact ih (step s e).fst hst.1 hst.2.1 (fun x hx => hv x (by simp [hx])) a ha
  exact ⟨rfl, main evs (stopPresentation st).fst rfl rfl h⟩

/-- Witness for C2: a stop with a continuation still pending, after which
both timer callbacks fire and a question is asked, with no narration fetch
in the trace. -/
theorem stop_halts_narration_fetches_witness :
    (stopPresentation
        { totalSlides := 5, currentSlide := 2, isPresenting := true, isSpeaking := true,
          isProcessing := false, shouldContinue := true, aiResponse := "", transcript := "",
          pending := [Timer.contin] }).fst.isPresenting = false ∧
    ∀ a ∈ (run (stopPresentation
        { totalSlides := 5, currentSlide := 2, isPresenting := true, isSpeaking := true,
          isProcessing := false, shouldContinue := true, aiResponse := "", transcript := "",
          pending := [Timer.contin] }).fst
        [Ev.continTimer (some { current_slide := 3, narration := "next", has_next := true }),
         Ev.question (some { response := "ans", slide_changed := false, target_slide := 0 }),
         Ev.resumeTimer (some { narration := "cur", has_next := true })]).snd,
      narrationFetch a = false :=
  stop_halts_narration_fetches _ _ (by decide)

/-- The invariant claimed by the spec: the current slide lies between 1
and the number of loaded slides. -/
def slideInv (st : AppState) : Prop :=
  1 ≤ st.currentSlide ∧ st.currentSlide ≤ (st.totalSlides : Int)

/-- Whether the server data carried by an event keeps every
server-supplied slide index within the slide range: the current_slide of
a start/next response and the target_slide of a slide-changing question
response. -/
def validEv (total : Nat) : Ev → Bool
  | Ev.start (some d) => decide (1 ≤ d.current_slide ∧ d.current_slide ≤ (total : Int))
  | Ev.continTimer (some d) => decide (1 ≤ d.current_slide ∧ d.current_slide ≤ (total : Int))
  | Ev.question (some q) =>
    decide (q.slide_changed = true → 1 ≤ q.target_slide ∧ q.target_slide ≤ (total : Int))
  | _ => true

/-- A concrete in-range controller state with two slides loaded. -/
def cexState : AppState :=
  { totalSlides := 2, currentSlide := 1, isPresenting := true, isSpeaking := false,
    isProcessing := false, shouldContinue := false, aiResponse := "", transcript := "",
    pending := [] }

/-- Counterexample to C3 as stated: from an in-range state with two
slides, a question answer with slide_changed and target_slide 3 drives
currentSlide out of the range, because sendQuestion adopts the
server-supplied target without clamping. -/
theorem slide_bound_cex :
    slideInv cexState ∧
    ¬ slideInv (step cexState (Ev.question (some
        { response := "answer", slide_changed := true, target_slide := 3 }))).fst := by
  constructor
  · exact ⟨by decide, by decide⟩
  · intro hc
    have h3 : (step cexState (Ev.question (some
        { response := "answer", slide_changed := true, target_slide := 3 }))).fst.currentSlide
        = 3 := by decide
    have h4 : (step cexState (Ev.question (some
        { response := "answer", slide_changed := true, target_slide := 3 }))).fst.totalSlides
        = 2 := by decide
    have h5 := hc.2
    rw [h3, h4] at h5
    norm_num at h5

/-- One controller event preserves the slide bound, provided at least one
slide is loaded and the server data carried by the event is in range;
the number of slides never changes. -/
theorem slideInv_step (st : AppState) (e : Ev) (ht : 1 ≤ st.totalSlides)
    (h : slideInv st) (hv : validEv st.totalSlides e = true) :
    slideInv (step st e).fst ∧ (step st e).fst.totalSlides = st.totalSlides := by
  cases e with
  | start r =>
    cases r with
    | none => exact ⟨h, rfl⟩
    | some d =>
      simp only [validEv, decide_eq_true_eq] at hv
      simp only [step, startPresentation]
      split <;> exact ⟨hv, rfl⟩
  | continTimer r =>
    cases r with
    | none =>
      simp only [step, fireContin, continuePresentation]
      repeat' first
        | exact ⟨h, rfl⟩
        | split
    | some d =>
      simp only [validEv, decide_eq_true_eq] at hv
      simp only [step, fireContin, continuePresentation]
      repeat' first
        | exact ⟨h, rfl⟩
        | exact ⟨hv, rfl⟩
        | split
  | resumeTimer r =>
    cases r with
    | none =>
      simp only [step, fireResume, resumePresentation]
      repeat' first
        | exact ⟨h, rfl⟩
        | split
    | some d =>
      simp only [step, fireResume, resumePresentation]
      repeat' first
        | exact ⟨h, rfl⟩
        | split
  | question q =>
    cases q with
    | none => exact ⟨h, rfl⟩
    | some d =>
      simp only [validEv, decide_eq_true_eq] at hv
      simp only [step, sendQuestion]
      cases hd : d.slide_changed with
      | false =>
        repeat' first
          | contradiction
          | exact ⟨h, rfl⟩
          | split
      | true =>
        have hv2 := hv hd
        repeat' first
          | contradiction
          | exact ⟨h, rfl⟩
          | exact ⟨hv2, rfl⟩
          | split
  | navigate n =>
    refine ⟨⟨?_, ?_⟩, rfl⟩ <;>
      · simp only [step, navigateStep, stopSpeaking, handleNavigate]
        omega
  | stopPres => exact ⟨h, rfl⟩
  | stopAgentEv => exact ⟨h, rfl⟩
  | ask => exact ⟨h, rfl⟩

/-- C3 amended: provided at least one slide is loaded and every
server-supplied slide index (current_slide of start/next responses,
target_slide of slide-changing question responses) lies within the range,
every reachable state of the controller keeps currentSlide between 1 and
totalSlides; without that proviso the bound fails (see the
counterexample), since the code adopts server indices unclamped. -/
theorem slide_bound_invariant (st : AppState) (evs : List Ev)
    (ht : 1 ≤ st.totalSlides) (h0 : slideInv st)
    (hv : ∀ e ∈ evs, validEv st.totalSlides e = true) :
    slideInv (run st evs).fst := by
  induction evs generalizing st with
  | nil => simpa [run] using h0
  | cons e es ih =>
    simp only [run]
    have hs := slideInv_step st e ht h0 (hv e (by simp))
    have ht2 : 1 ≤ (step st e).fst.totalSlides := by rw [hs.2]; exact ht
    have hv2 : ∀ x ∈ es, validEv (step st e).fst.totalSlides x = true := by
      intro x hx; rw [hs.2]; exact hv x (by simp [hx])
    exact ih (step st e).fst ht2 hs.1 hv2

/-- Witness for the amended C3 along a concrete trace: start, one
continuation, and a far-out-of-range navigation. -/
theorem slide_bound_invariant_witness :
    slideInv (run
      { totalSlides := 5, currentSlide := 1, isPresenting := false, isSpeaking := false,
        isProcessing := false, shouldContinue := false, aiResponse := "", transcript := "",
        pending := [] }
      [Ev.start (some { current_slide := 1, narration := "intro", has_next := true }),
       Ev.continTimer (some { current_slide := 2, narration := "next", has_next := true }),
       Ev.navigate (-7)]).fst :=
  slide_bound_invariant _ _ (by decide) ⟨by decide, by decide⟩ (by decide)

/-- C1: an interruption (askQuestion) followed by an answered question and
the resume timer firing re-fetches the narration of the slide that is
current after the answer and speaks it behind the continuation phrase;
no next-slide fetch occurs, and when the answer did not change the slide
the resumed slide is exactly the slide current at the interruption, for
every such slide index. -/
theorem question_resumes_current_slide (st : AppState) (q : QuestionData) (r : SlideData)
    (hp : st.isPresenting = true) (hpend : st.pending = []) :
    Act.fetch (FetchPath.presentSlide
        ((run st [Ev.ask, Ev.question (some q)]).fst.currentSlide))
      ∈ (run st [Ev.ask, Ev.question (some q), Ev.resumeTimer (some r)]).snd ∧
    Act.speakText (resumePreamble ++ r.narration)
      ∈ (run st [Ev.ask, Ev.question (some q), Ev.resumeTimer (some r)]).snd ∧
    Act.fetch FetchPath.presentNext
      ∉ (run st [Ev.ask, Ev.question (some q), Ev.resumeTimer (some r)]).snd ∧
    (q.slide_changed = false →
      (run st [Ev.ask, Ev.question (some q)]).fst.currentSlide = st.currentSlide) := by
  cases hsc : q.slide_changed <;> cases hn : r.has_next <;>
    simp [run, step, askQuestion, stopSpeaking, sendQuestion, fireResume, resumePresentation,
          speakActs, hp, hpend, hsc, hn]

/-- Witness for C1: interruption at slide 2 of an active presentation, an
answer that does not move the slide, and the resume timer firing. -/
theorem question_resumes_current_slide_witness :
    Act.fetch (FetchPath.presentSlide
        ((run
          { totalSlides := 5, currentSlide := 2, isPresenting := true, isSpeaking := true,
            isProcessing := false, shouldContinue := true, aiResponse := "", transcript := "q",
            pending := [] }
          [Ev.ask, Ev.question (some { response := "ans", slide_changed := false,
                                       target_slide := 0 })]).fst.currentSlide))
      ∈ (run
          { totalSlides := 5, currentSlide := 2, isPresenting := true, isSpeaking := true,
            isProcessing := false, shouldContinue := true, aiResponse := "", transcript := "q",
            pending := [] }
          [Ev.ask, Ev.question (some { response := "ans", slide_changed := false,
                                       target_slide := 0 }),
           Ev.resumeTimer (some { narration := "slide two", has_next := true })]).snd ∧
    Act.speakText (resumePreamble ++ "slide two")
      ∈ (run
          { totalSlides := 5, currentSlide := 2, isPresenting := true, isSpeaking := true,
            isProcessing := false, shouldContinue := true, aiResponse := "", transcript := "q",
            pending := [] }
          [Ev.ask, Ev.question (some { response := "ans", slide_changed := false,
                                       target_slide := 0 }),
           Ev.resumeTimer (some { narration := "slide two", has_next := true })]).snd ∧
    Act.fetch FetchPath.presentNext
      ∉ (run
          { totalSlides := 5, currentSlide := 2, isPresenting := true, isSpeaking := true,
            isProcessing := false, shouldContinue := true, aiResponse := "", transcript := "q",
            pending := [] }
          [Ev.ask, Ev.question (some { response := "ans", slide_changed := false,
                                       target_slide := 0 }),
           Ev.resumeTimer (some { narration := "slide two", has_next := true })]).snd ∧
    ((false : Bool) = false →
      (run
          { totalSlides := 5, currentSlide := 2, isPresenting := true, isSpeaking := true,
            isProcessing := false, shouldContinue := true, aiResponse := "", transcript := "q",
            pending := [] }
          [Ev.ask, Ev.question (some { response := "ans", slide_changed := false,
                                       target_slide := 0 })]).fst.currentSlide = 2) :=
  question_resumes_current_slide
    { totalSlides := 5, currentSlide := 2, isPresenting := true, isSpeaking := true,
      isProcessing := false, shouldContinue := true, aiResponse := "", transcript := "q",
      pending := [] }
    { response := "ans", slide_changed := false, target_slide := 0 }
    { narration := "slide two", has_next := true } rfl rfl

/-- An idle controller state used by the C6 counterexample. -/
def idleState : AppState :=
  { totalSlides := 3, currentSlide := 1, isPresenting := false, isSpeaking := false,
    isProcessing := false, shouldContinue := false, aiResponse := "", transcript := "",
    pending := [] }

/-- Counterexample to C6 as stated: a failed startPresentation fetch is
caught and logged, but isPresenting is not reset — the UI is left in the
Presenting state, not Idle. -/
theorem fetch_failure_cex :
    Act.logError ∈ (step idleState (Ev.start none)).snd ∧
    ¬ (step idleState (Ev.start none)).fst.isPresenting = false := by
  decide

/-- C6 amended: every failure of a narration fetch or of sending a
question is caught and logged and does not crash the controller, and
isProcessing is reset; but the failure handler does not reset
isPresenting: it stays true after a failed start and keeps its prior
value after a failed continuation or question, so the UI returns to Idle
only through stopPresentation. -/
theorem fetch_failures_logged_not_idle (st : AppState)
    (hp : st.isPresenting = true) (hc : st.shouldContinue = true)
    (hpend : Timer.contin ∈ st.pending) :
    (Act.logError ∈ (step st (Ev.start none)).snd ∧
      (step st (Ev.start none)).fst.isPresenting = true ∧
      (step st (Ev.start none)).fst.isProcessing = false) ∧
    (Act.logError ∈ (step st (Ev.continTimer none)).snd ∧
      (step st (Ev.continTimer none)).fst.isPresenting = true ∧
      (step st (Ev.continTimer none)).fst.currentSlide = st.currentSlide) ∧
    (Act.logError ∈ (step st (Ev.question none)).snd ∧
      (step st (Ev.question none)).fst.isPresenting = st.isPresenting ∧
      (step st (Ev.question none)).fst.isProcessing = false) := by
  refine ⟨⟨?_, rfl, rfl⟩, ⟨?_, ?_, ?_⟩, ⟨?_, rfl, rfl⟩⟩
  · simp [step, startPresentation]
  · simp [step, fireContin, continuePresentation, hp, hc, hpend]
  · simp [step, fireContin, continuePresentation, hp, hc, hpend]
  · simp [step, fireContin, continuePresentation, hp, hc, hpend]
  · simp [step, sendQuestion]

/-- Witness for the amended C6 at a concrete presenting state with a
pending continuation. -/
theorem fetch_failures_logged_not_idle_witness :
    (Act.logError ∈ (step
        { totalSlides := 3, currentSlide := 2, isPresenting := true, isSpeaking := false,
          isProcessing := false, shouldContinue := true, aiResponse := "", transcript := "",
          pending := [Timer.contin] } (Ev.start none)).snd ∧
      (step
        { totalSlides := 3, currentSlide := 2, isPresenting := true, isSpeaking := false,
          isProcessing := false, shouldContinue := true, aiResponse := "", transcript := "",
          pending := [Timer.contin] } (Ev.start none)).fst.isPresenting = true ∧
      (step
        { totalSlides := 3, currentSlide := 2, isPresenting := true, isSpeaking := false,
          isProcessing := false, shouldContinue := true, aiResponse := "", transcript := "",
          pending := [Timer.contin] } (Ev.start none)).fst.isProcessing = false) ∧
    (Act.logError ∈ (step
        { totalSlides := 3, currentSlide := 2, isPresenting := true, isSpeaking := false,
          isProcessing := false, shouldContinue := true, aiResponse := "", transcript := "",
          pending := [Timer.contin] } (Ev.continTimer none)).snd ∧
      (step
        { totalSlides := 3, currentSlide := 2, isPresenting := true, isSpeaking := false,
          isProcessing := false, shouldContinue := true, aiResponse := "", transcript := "",
          pending := [Timer.contin] } (Ev.continTimer none)).fst.isPresenting = true ∧
      (step
        { totalSlides := 3, currentSlide := 2, isPresenting := true, isSpeaking := false,
          isProcessing := false, shouldContinue := true, aiResponse := "", transcript := "",
          pending := [Timer.contin] } (Ev.continTimer none)).fst.currentSlide =
        ({ totalSlides := 3, currentSlide := 2, isPresenting := true, isSpeaking := false,
           isProcessing := false, shouldContinue := true, aiResponse := "", transcript := "",
           pending := [Timer.contin] } : AppState).currentSlide) ∧
    (Act.logError ∈ (step
        { totalSlides := 3, currentSlide := 2, isPresenting := true, isSpeaking := false,
          isProcessing := false, shouldContinue := true, aiResponse := "", transcript := "",
          pending := [Timer.contin] } (Ev.question none)).snd ∧
      (step
        { totalSlides := 3, currentSlide := 2, isPresenting := true, isSpeaking := false,
          isProcessing := false, shouldContinue := true, aiResponse := "", transcript := "",
          pending := [Timer.contin] } (Ev.question none)).fst.isPresenting =
        ({ totalSlides := 3, currentSlide := 2, isPresenting := true, isSpeaking := false,
           isProcessing := false, shouldContinue := true, aiResponse := "", transcript := "",
           pending := [Timer.contin] } : AppState).isPresenting ∧
      (step
        { totalSlides := 3, currentSlide := 2, isPresenting := true, isSpeaking := false,
          isProcessing := false, shouldContinue := true, aiResponse := "", transcript := "",
          pending := [Timer.contin] } (Ev.question none)).fst.isProcessing = false) :=
  fetch_failures_logged_not_idle
    { totalSlides := 3, currentSlide := 2, isPresenting := true, isSpeaking := false,
      isProcessing := false, shouldContinue := true, aiResponse := "", transcript := "",
      pending := [Timer.contin] } rfl rfl (by decide)

/-- A recognition state in continuous listening mode. -/
def contRecState : RecState :=
  { continuousMode := true, isListening := true, errMsg := none }

/-- Counterexample to C7 as stated: after a permission-denied error the
onerror handler does not restart, but the end event that follows it does
restart capture while the continuous-mode ref is still set — so there is
a sequence of error and end events after which capture restarts following
a not-allowed error. -/
theorem recognition_restart_cex :
    RecAct.recStart ∈
      (recRun contRecState [RecEv.err RecErr.notAllowed, RecEv.ended]).snd := by
  decide

/-- A non-begin recognition event keeps continuous mode off and, with
continuous mode off, never attempts a restart. -/
theorem recStep_mode_off (st : RecState) (e : RecEv) (hm : st.continuousMode = false)
    (hb : e ≠ RecEv.beginContinuous) :
    (recStep st e).fst.continuousMode = false ∧
    RecAct.recStart ∉ (recStep st e).snd := by
  cases e with
  | err er => cases er <;> simp [recStep, onRecError, hm]
  | ended => simp [recStep, onRecEnd, hm]
  | startedCb => simp [recStep, hm]
  | beginContinuous => exact absurd rfl hb
  | stopContinuous => simp [recStep]
  | cleanup => simp [recStep]

/-- C7 amended: the onerror handler restarts capture only after a
transient no-speech error in continuous mode, and never after an aborted
or permission-denied error; once continuous mode has been disabled — as
stopContinuousListening and the unmount cleanup do before stopping or
aborting — no sequence of error and end events restarts capture; but
while continuous mode remains enabled, the end event following any error
(permission-denied included) restarts capture. -/
theorem recognition_restart_amended :
    (∀ st : RecState, st.continuousMode = true →
      (onRecError st RecErr.noSpeech).snd = [RecAct.recStart]) ∧
    (∀ st : RecState, (onRecError st RecErr.notAllowed).snd = [] ∧
      (onRecError st RecErr.aborted).snd = []) ∧
    (∀ st : RecState, st.continuousMode = true →
      (onRecEnd st).snd = [RecAct.recStart]) ∧
    (∀ st : RecState, st.continuousMode = false → ∀ evs : List RecEv,
      (∀ e ∈ evs, e ≠ RecEv.beginContinuous) →
      RecAct.recStart ∉ (recRun st evs).snd) := by
  refine ⟨?_, ?_, ?_, ?_⟩
  · intro st hm; simp [onRecError, hm]
  · intro st; exact ⟨rfl, rfl⟩
  · intro st hm; simp [onRecEnd, hm]
  · intro st hm evs hb
    induction evs generalizing st with
    | nil => simp [recRun]
    | cons e es ih =>
      have h1 := recStep_mode_off st e hm (hb e (by simp))
      simp only [recRun, List.mem_append]
      intro hmem
      rcases hmem with hmem | hmem
      · exact h1.2 hmem
      · exact ih (recStep st e).fst h1.1 (fun x hx => hb x (by simp [hx])) hmem

/-- Witness for the amended C7: a concrete no-speech restart in
continuous mode. -/
theorem recognition_restart_amended_witness :
    (onRecError contRecState RecErr.noSpeech).snd = [RecAct.recStart] :=
  recognition_restart_amended.1 contRecState rfl

/-- C8: after an unexpected closure the hook always schedules a reconnect
at the fixed 3000 ms delay (the same delay in every state, hence
non-exponential), the fired reconnect creates a fresh socket, and a
subsequent sendMessage goes out on that new socket with no caller
action. -/
theorem ws_reconnect_fixed_backoff (st : WsState) (m : String) :
    WsAct.scheduleReconnect RECONNECT_DELAY_MS ∈
      (wsRun st [WsEv.closedCb, WsEv.fireReconnect, WsEv.openedCb, WsEv.send m]).snd ∧
    WsAct.create (st.gen + 1) ∈
      (wsRun st [WsEv.closedCb, WsEv.fireReconnect, WsEv.openedCb, WsEv.send m]).snd ∧
    WsAct.wsSend (st.gen + 1) m ∈
      (wsRun st [WsEv.closedCb, WsEv.fireReconnect, WsEv.openedCb, WsEv.send m]).snd ∧
    (∀ d, WsAct.scheduleReconnect d ∈
        (wsRun st [WsEv.closedCb, WsEv.fireReconnect, WsEv.openedCb, WsEv.send m]).snd →
      d = RECONNECT_DELAY_MS) ∧
    (∀ s2 : WsState,
      (wsStep s2 WsEv.closedCb).snd = [WsAct.scheduleReconnect RECONNECT_DELAY_MS] ∧
      (wsStep s2 WsEv.closedCb).fst.reconnectPending = true) := by
  refine ⟨?_, ?_, ?_, ?_, fun s2 => ⟨rfl, rfl⟩⟩ <;>
    simp [wsRun, wsStep, wsConnect, RECONNECT_DELAY_MS]

/-- Witness for C8 at a concrete connected state. -/
theorem ws_reconnect_fixed_backoff_witness :
    WsAct.create 1 ∈
      (wsRun { gen := 0, isConnected := true, reconnectPending := false }
        [WsEv.closedCb, WsEv.fireReconnect, WsEv.openedCb, WsEv.send "hi"]).snd :=
  (ws_reconnect_fixed_backoff
    { gen := 0, isConnected := true, reconnectPending := false } "hi").2.1

/-- C10: whatever the outcome of sendQuestion, success or caught failure,
the finally block resets isProcessing and clears the captured transcript. -/
theorem sendQuestion_resets_processing (st : AppState) (q : Option QuestionData) :
    (sendQuestion st q).fst.isProcessing = false ∧
    (sendQuestion st q).fst.transcript = "" := by
  cases q <;> exact ⟨rfl, rfl⟩

end Synthio
